import Mathlib

/-!
Shallow embedding of the AWS resource-management modules under
`lib/ansible/modules/cloud/amazon/` (aws_acm_pca, aws_neptune_instance,
redshift_cluster, rekognition_stream_processor, snowball_address,
snowball_job, aws_storage_gateway).

Python values that flow through the modules (module options, request
dictionaries, provider responses) are modelled by the inductive `Val`;
Python dictionaries are association lists with string keys.  Provider
behaviour (the boto3 client) is an oracle passed explicitly: each modelled
function takes the outcome of its provider calls (`Except PyExc _` for the
read calls, `Option PyExc` for the mutation calls, `none` meaning success)
and returns the module-level outcome together with the ordered trace of
API calls and waiter invocations it issued.
-/

/-- A Python value as used by the modules: `None`, booleans, integers and
strings.  (The diffing logic of the modules only ever compares values for
equality, so the exact value grammar is irrelevant to the theorems.) -/
inductive Val where
  | vnone
  | vbool (b : Bool)
  | vint (n : Int)
  | vstr (s : String)
deriving DecidableEq, Repr

/-- Python truthiness of a `Val`, as used by the `if module.params.get(x):`
guards of the request-building code: `None`, `False`, `0` and `""` are
falsy, everything else is truthy. -/
def Val.truthy : Val → Bool
  | .vnone => false
  | .vbool b => b
  | .vint n => n != 0
  | .vstr s => s != ""

/-- A Python dictionary with string keys, as an association list. -/
abbrev Dict := List (String × Val)

/-- `d[k]` / `d.get(k)`: the value stored under `k`, `None` when absent. -/
def dget : Dict → String → Val
  | [], _ => Val.vnone
  | p :: t, k => if p.1 == k then p.2 else dget t k

/-- `k in d`. -/
def hasKey : Dict → String → Bool
  | [], _ => false
  | p :: t, k => p.1 == k || hasKey t k

/-- `d[k] = v`: Python dictionary assignment (replace the existing binding
in place, otherwise append a new one at the end; the dictionaries the
modules build all have unique keys). -/
def dset : Dict → String → Val → Dict
  | [], k, v => [(k, v)]
  | p :: t, k, v => if p.1 == k then (k, v) :: t else p :: dset t k v

/-- `list(d.keys())`. -/
def dkeys (d : Dict) : List String :=
  d.map Prod.fst

/-- Python `==` on dictionaries: same key set, equal values key by key
(order-insensitive). -/
def dictEq (a b : Dict) : Bool :=
  (dkeys a).all (fun k => hasKey b k && dget a k == dget b k)
    && (dkeys b).all (fun k => hasKey a k)

/-- `common_keys = set(param_keys) - (set(param_keys) - set(current_keys))`:
the keys of `params` that also occur in `current`.  This line is repeated
verbatim in aws_acm_pca.update_pca, aws_neptune_instance.update_instance
and rekognition_stream_processor.update_processor. -/
def common_keys (params current : Dict) : List String :=
  (dkeys params).filter (fun k => (dkeys current).contains k)

/-- The `param_changed` list built by the shared update-diff loop:
one Boolean per common key, `true` when the two values differ. -/
def param_changed (params current : Dict) : List Bool :=
  (common_keys params current).map (fun k => !(dget params k == dget current k))

/-- `any(param_changed)`. -/
def any_param_changed (params current : Dict) : Bool :=
  (param_changed params current).any id

/-- The exceptions relevant to these modules.  `clientError` and
`botoCoreError` are the two botocore base exceptions; `dbInstanceNotFound`
and `clusterNotFound` stand for the service-specific not-found client
errors caught by name; `nameError` and `indexError` are the Python
built-ins; `other` is any other exception. -/
inductive PyExc where
  | clientError
  | botoCoreError
  | dbInstanceNotFound
  | clusterNotFound
  | nameError
  | indexError
  | other
deriving DecidableEq, Repr

/-- One provider interaction: an API call or a waiter invocation. -/
inductive Api where
  | call (name : String)
  | wait (name : String)
deriving DecidableEq, Repr

/-- Whether a trace entry is a waiter invocation. -/
def Api.isWait : Api → Bool
  | .wait _ => true
  | .call _ => false

/-- Module-level outcome of a (sub-)routine: a normal return / exit_json
carrying the `changed` flag and the reported identifier, a generic failure
via `fail_json_aws`, the early `exit_json(changed=True)` taken in check
mode, or an exception propagating uncaught out of the module. -/
inductive FnResult where
  | ret (changed : Bool) (ident : Val)
  | failJson
  | checkModeExit
  | escaped (e : PyExc)
deriving DecidableEq, Repr

/-- Whether an outcome is a normal exit reporting `changed=True`. -/
def FnResult.isChanged : FnResult → Bool
  | .ret true _ => true
  | _ => false

/-- Outcome of an existence/state check. -/
inductive CheckResult where
  | status (found : Bool) (cfg : Dict)
  | failed
  | escaped (e : PyExc)
deriving DecidableEq, Repr

/-! ### aws_acm_pca -/

/-- One element of the `list_certificate_authorities` response, as consumed
by `pca_exists`: the loop projects
`i["CertificateAuthorityConfiguration"]["Subject"]["CommonName"]` out of
each entry `i` and compares it with the declared common name, so the model
carries that projection alongside the entry itself. -/
structure CAEntry where
  commonName : Val
  entry : Dict
deriving DecidableEq, Repr

/-- The scan loop of `pca_exists`: `current_config` starts empty and
`exists` starts `False`; every entry whose common name matches overwrites
both (the last match wins, there is no `break`). -/
def pca_scan (cas : List CAEntry) (commonName : Val) : Bool × Dict :=
  cas.foldl (fun acc i => if i.commonName == commonName then (true, i.entry) else acc)
    (false, [])

/-- `aws_acm_pca.pca_exists`: in check mode with `state=absent` it returns
`exists=False` immediately; otherwise it lists the certificate authorities
(`listApi` is the provider outcome of that call) and scans for the
declared common name.  A `ClientError` or `BotoCoreError` is caught and
turned into `fail_json_aws`; any other exception propagates. -/
def pca_exists (checkMode : Bool) (state : String)
    (listApi : Except PyExc (List CAEntry)) (commonName : Val) : CheckResult :=
  if checkMode && state == "absent" then
    .status false []
  else
    match listApi with
    | .error e =>
        if e == .clientError || e == .botoCoreError then .failed else .escaped e
    | .ok cas =>
        let scan := pca_scan cas commonName
        .status scan.1 scan.2

/-- `aws_acm_pca.create_pca`: check mode exits `changed=True`; otherwise it
calls `create_certificate_authority` and waits on the `pca_available`
waiter.  `mutExc` is the provider outcome of the try block (`none` means
both steps succeed); `createdArn` is the ARN of the created authority. -/
def create_pca (checkMode : Bool) (mutExc : Option PyExc) (createdArn : Val) :
    FnResult × List Api :=
  if checkMode then (.checkModeExit, [])
  else
    match mutExc with
    | none => (.ret true createdArn,
        [.call "create_certificate_authority", .wait "pca_available"])
    | some e =>
        if e == PyExc.clientError || e == PyExc.botoCoreError then
          (.failJson, [.call "create_certificate_authority"])
        else (.escaped e, [.call "create_certificate_authority"])

/-- `aws_acm_pca.update_pca`: diffs `params` against
`pca_status["current_config"]` over their common keys; when any common key
differs it calls `update_certificate_authority` and waits on
`pca_available`, returning the stored ARN with `changed=True`; when no
common key differs it returns the stored ARN with `changed=False` and
issues no call. -/
def update_pca (checkMode : Bool) (params current_config : Dict)
    (mutExc : Option PyExc) : FnResult × List Api :=
  if checkMode then (.checkModeExit, [])
  else if any_param_changed params current_config then
    match mutExc with
    | none => (.ret true (dget current_config "Arn"),
        [.call "update_certificate_authority", .wait "pca_available"])
    | some e =>
        if e == PyExc.clientError || e == PyExc.botoCoreError then
          (.failJson, [.call "update_certificate_authority"])
        else (.escaped e, [.call "update_certificate_authority"])
  else (.ret false (dget current_config "Arn"), [])

/-- `aws_acm_pca.delete_pca`: calls `delete_certificate_authority` on the
stored ARN and waits on `pca_deleted`; on success it reports
`changed=True` with an empty `pca_arn`. -/
def delete_pca (checkMode : Bool) (mutExc : Option PyExc) : FnResult × List Api :=
  if checkMode then (.checkModeExit, [])
  else
    match mutExc with
    | none => (.ret true (Val.vstr ""),
        [.call "delete_certificate_authority", .wait "pca_deleted"])
    | some e =>
        if e == PyExc.clientError || e == PyExc.botoCoreError then
          (.failJson, [.call "delete_certificate_authority"])
        else (.escaped e, [.call "delete_certificate_authority"])

/-- Dispatch of `aws_acm_pca.main` after the request dictionary has been
built: run `pca_exists`, then branch on the desired state; the final
`exit_json` reports `result["changed"]` and `result["pca_arn"]`, whose
initial values are `False` and the empty string. -/
def pca_main (checkMode : Bool) (state : String) (params : Dict)
    (listApi : Except PyExc (List CAEntry)) (commonName : Val)
    (mutExc : Option PyExc) (createdArn : Val) : FnResult × List Api :=
  let listCall := [Api.call "list_certificate_authorities"]
  match pca_exists checkMode state listApi commonName with
  | .failed => (.failJson, listCall)
  | .escaped e => (.escaped e, listCall)
  | .status found cfg =>
      if state == "present" then
        if !found then
          let r := create_pca checkMode mutExc createdArn
          (r.1, listCall ++ r.2)
        else
          let r := update_pca checkMode params cfg mutExc
          (r.1, listCall ++ r.2)
      else if state == "absent" then
        if found then
          let r := delete_pca checkMode mutExc
          (r.1, listCall ++ r.2)
        else (.ret false (Val.vstr ""), listCall)
      else (.ret false (Val.vstr ""), listCall)

/-- The `subject_params` block of `aws_acm_pca.main` (the
`module.params["ca_configuration"]["subject"]` fields): each optional
field is copied to its provider-cased key only when its value is truthy. -/
def acm_subject_params (subject : Dict) : Dict :=
  let p : Dict := []
  let p := if (dget subject "country").truthy then dset p "Country" (dget subject "country") else p
  let p := if (dget subject "organization").truthy then dset p "Organization" (dget subject "organization") else p
  let p := if (dget subject "organizational_unit").truthy then dset p "OrganizationalUnit" (dget subject "organizational_unit") else p
  let p := if (dget subject "name_qualifier").truthy then dset p "DistinguishedNameQualifier" (dget subject "name_qualifier") else p
  let p := if (dget subject "state").truthy then dset p "State" (dget subject "state") else p
  let p := if (dget subject "common_name").truthy then dset p "CommonName" (dget subject "common_name") else p
  let p := if (dget subject "serial_number").truthy then dset p "SerialNumber" (dget subject "serial_number") else p
  let p := if (dget subject "locality").truthy then dset p "Locality" (dget subject "locality") else p
  let p := if (dget subject "title").truthy then dset p "Title" (dget subject "title") else p
  let p := if (dget subject "surname").truthy then dset p "Surname" (dget subject "surname") else p
  let p := if (dget subject "given_name").truthy then dset p "GivenName" (dget subject "given_name") else p
  let p := if (dget subject "initials").truthy then dset p "Initials" (dget subject "initials") else p
  let p := if (dget subject "pseudonym").truthy then dset p "Pseudonym" (dget subject "pseudonym") else p
  if (dget subject "generation_qualifier").truthy then dset p "GenerationQualifier" (dget subject "generation_qualifier") else p

/-- The `revocation_params` block of `aws_acm_pca.main`: `Enabled` is
copied unconditionally from the `enabled` suboption, the other suboptions
only when truthy. -/
def acm_revocation_params (rc : Dict) : Dict :=
  let p := dset [] "Enabled" (dget rc "enabled")
  let p := if (dget rc "expiration").truthy then dset p "ExpirationInDays" (dget rc "expiration") else p
  let p := if (dget rc "custom_cname").truthy then dset p "CustomCname" (dget rc "custom_cname") else p
  if (dget rc "s3_bucket").truthy then dset p "S3BucketName" (dget rc "s3_bucket") else p

/-! ### aws_neptune_instance -/

/-- `aws_neptune_instance.instance_exists`: in check mode with
`state=absent` it returns `exists=False`; otherwise it calls
`describe_db_instances` (`descApi` carries its outcome, `.ok cfg` being
`response["DBInstances"][0]`).  The `DBInstanceNotFound` client error is
caught and treated as absent; other `ClientError`/`BotoCoreError`
exceptions become `fail_json_aws`; anything else propagates. -/
def instance_exists (checkMode : Bool) (state : String)
    (descApi : Except PyExc Dict) : CheckResult :=
  if checkMode && state == "absent" then .status false []
  else
    match descApi with
    | .error e =>
        if e == .dbInstanceNotFound then .status false []
        else if e == .clientError || e == .botoCoreError then .failed
        else .escaped e
    | .ok cfg => .status true cfg

/-- `aws_neptune_instance.create_instance`: calls `create_db_instance` and
waits on the `db_instance_available` waiter; `respArn` is
`response["DBInstance"]["DBInstanceArn"]`. -/
def create_instance (checkMode : Bool) (mutExc : Option PyExc) (respArn : Val) :
    FnResult × List Api :=
  if checkMode then (.checkModeExit, [])
  else
    match mutExc with
    | none => (.ret true respArn,
        [.call "create_db_instance", .wait "db_instance_available"])
    | some e =>
        if e == PyExc.clientError || e == PyExc.botoCoreError then
          (.failJson, [.call "create_db_instance"])
        else (.escaped e, [.call "create_db_instance"])

/-- `aws_neptune_instance.update_instance`: the same common-key diff as
`update_pca`; when a common key differs it calls `modify_db_instance` and
waits on `db_instance_available`, reporting the ARN of the modify response
(`respArn`); otherwise it reports the stored `DBInstanceArn` with
`changed=False` and no call. -/
def update_instance (checkMode : Bool) (params current_config : Dict)
    (mutExc : Option PyExc) (respArn : Val) : FnResult × List Api :=
  if checkMode then (.checkModeExit, [])
  else if any_param_changed params current_config then
    match mutExc with
    | none => (.ret true respArn,
        [.call "modify_db_instance", .wait "db_instance_available"])
    | some e =>
        if e == PyExc.clientError || e == PyExc.botoCoreError then
          (.failJson, [.call "modify_db_instance"])
        else (.escaped e, [.call "modify_db_instance"])
  else (.ret false (dget current_config "DBInstanceArn"), [])

/-- `aws_neptune_instance.delete_instance`: calls `delete_db_instance` and
waits on `db_instance_deleted`; on success reports `changed=True` with an
empty ARN. -/
def delete_instance (checkMode : Bool) (mutExc : Option PyExc) :
    FnResult × List Api :=
  if checkMode then (.checkModeExit, [])
  else
    match mutExc with
    | none => (.ret true (Val.vstr ""),
        [.call "delete_db_instance", .wait "db_instance_deleted"])
    | some e =>
        if e == PyExc.clientError || e == PyExc.botoCoreError then
          (.failJson, [.call "delete_db_instance"])
        else (.escaped e, [.call "delete_db_instance"])

/-- Dispatch of `aws_neptune_instance.main` after the request dictionary
has been built; the initial result is `changed=False` with an empty
`db_instance_arn`. -/
def neptune_main (checkMode : Bool) (state : String) (params : Dict)
    (descApi : Except PyExc Dict) (mutExc : Option PyExc) (respArn : Val) :
    FnResult × List Api :=
  let descCall := [Api.call "describe_db_instances"]
  match instance_exists checkMode state descApi with
  | .failed => (.failJson, descCall)
  | .escaped e => (.escaped e, descCall)
  | .status found cfg =>
      if state == "present" then
        if !found then
          let r := create_instance checkMode mutExc respArn
          (r.1, descCall ++ r.2)
        else
          let r := update_instance checkMode params cfg mutExc respArn
          (r.1, descCall ++ r.2)
      else if state == "absent" then
        if found then
          let r := delete_instance checkMode mutExc
          (r.1, descCall ++ r.2)
        else (.ret false (Val.vstr ""), descCall)
      else (.ret false (Val.vstr ""), descCall)

/-- The request-dictionary construction of `aws_neptune_instance.main`
(lines 322-385): `DBInstanceIdentifier`, `DBInstanceClass` and `Engine`
are copied unconditionally from the required options; every other option
is copied to its provider-cased key only when its value is truthy. -/
def neptune_build (mp : Dict) : Dict :=
  let p : Dict := []
  let p := if (dget mp "database_name").truthy then dset p "DatabaseName" (dget mp "database_name") else p
  let p := dset p "DBInstanceIdentifier" (dget mp "name")
  let p := dset p "DBInstanceClass" (dget mp "instance_class")
  let p := dset p "Engine" (dget mp "db_engine")
  let p := if (dget mp "master_username").truthy then dset p "MasterUsername" (dget mp "master_username") else p
  let p := if (dget mp "master_password").truthy then dset p "MasterUserPassword" (dget mp "master_password") else p
  let p := if (dget mp "db_security_groups").truthy then dset p "DBSecurityGroups" (dget mp "db_security_groups") else p
  let p := if (dget mp "vpc_security_groups").truthy then dset p "VpcSecurityGroupIds" (dget mp "vpc_security_groups") else p
  let p := if (dget mp "availability_zone").truthy then dset p "AvailabilityZone" (dget mp "availability_zone") else p
  let p := if (dget mp "db_subnet_group").truthy then dset p "DBSubnetGroupName" (dget mp "db_subnet_group") else p
  let p := if (dget mp "maintenance_window").truthy then dset p "PreferredMaintenanceWindow" (dget mp "maintenance_window") else p
  let p := if (dget mp "parameter_group").truthy then dset p "DBParameterGroupName" (dget mp "parameter_group") else p
  let p := if (dget mp "multi_az").truthy then dset p "MultiAZ" (dget mp "multi_az") else p
  let p := if (dget mp "db_engine_version").truthy then dset p "EngineVersion" (dget mp "db_engine_version") else p
  let p := if (dget mp "auto_minor_version_upgrade").truthy then dset p "AutoMinorVersionUpgrade" (dget mp "auto_minor_version_upgrade") else p
  let p := if (dget mp "license_model").truthy then dset p "LicenseModel" (dget mp "license_model") else p
  let p := if (dget mp "iops").truthy then dset p "Iops" (dget mp "iops") else p
  let p := if (dget mp "option_group").truthy then dset p "OptionGroupName" (dget mp "option_group") else p
  let p := if (dget mp "publicly_accessible").truthy then dset p "PubliclyAccessible" (dget mp "publicly_accessible") else p
  let p := if (dget mp "db_cluster").truthy then dset p "DBClusterIdentifier" (dget mp "db_cluster") else p
  let p := if (dget mp "tde_credential_arn").truthy then dset p "TdeCredentialArn" (dget mp "tde_credential_arn") else p
  let p := if (dget mp "tde_credential_password").truthy then dset p "TdeCredentialPassword" (dget mp "tde_credential_password") else p
  let p := if (dget mp "domain").truthy then dset p "Domain" (dget mp "domain") else p
  let p := if (dget mp "copy_tags_to_snapshot").truthy then dset p "CopyTagsToSnapshot" (dget mp "copy_tags_to_snapshot") else p
  let p := if (dget mp "monitoring_interval").truthy then dset p "MonitoringInterval" (dget mp "monitoring_interval") else p
  let p := if (dget mp "monitoring_role_arn").truthy then dset p "MonitoringRoleArn" (dget mp "monitoring_role_arn") else p
  let p := if (dget mp "domain_role_arn").truthy then dset p "DomainIAMRoleName" (dget mp "domain_role_arn") else p
  let p := if (dget mp "promotion_tier").truthy then dset p "PromotionTier" (dget mp "promotion_tier") else p
  let p := if (dget mp "timezone").truthy then dset p "Timezone" (dget mp "timezone") else p
  let p := if (dget mp "enable_iam_auth").truthy then dset p "EnableIAMDatabaseAuthentication" (dget mp "enable_iam_auth") else p
  let p := if (dget mp "enable_performance_insights").truthy then dset p "EnablePerformanceInsights" (dget mp "enable_performance_insights") else p
  let p := if (dget mp "performance_insights_kms_key").truthy then dset p "PerformanceInsightsKMSKeyId" (dget mp "performance_insights_kms_key") else p
  if (dget mp "enable_cloudwatch_logs_export").truthy then dset p "EnableCloudwatchLogsExports" (dget mp "enable_cloudwatch_logs_export") else p

/-! ### rekognition_stream_processor -/

/-- Outcome of `processor_exists`. -/
inductive ProcCheck where
  | found (cfg : Dict)
  | absent
  | failed
  | checkModeTaken
  | escaped (e : PyExc)
deriving DecidableEq, Repr

/-- The names bound at module level in rekognition_stream_processor.py. -/
def rek_defined_names : List String :=
  ["processor_exists", "create_processor", "update_processor",
   "delete_processor", "main"]

/-- The except clause used throughout the rekognition module:
`except (BotoCoreError, ClientError)`. -/
def rek_handler_catches (e : PyExc) : Bool :=
  e == PyExc.botoCoreError || e == PyExc.clientError

/-- `rekognition_stream_processor.processor_exists`: in check mode it exits
`changed=True` immediately; otherwise it lists the stream processors and,
on a name match, describes the processor and stores the response as
`result["processor_config"]`.  `chkApi` is the provider outcome:
`.ok (some cfg)` when a processor with the declared name exists (with
`cfg` the describe response), `.ok none` when none matches. -/
def processor_exists (checkMode : Bool) (chkApi : Except PyExc (Option Dict)) :
    ProcCheck :=
  if checkMode then .checkModeTaken
  else
    match chkApi with
    | .error e => if rek_handler_catches e then .failed else .escaped e
    | .ok (some cfg) => .found cfg
    | .ok none => .absent

/-- `rekognition_stream_processor.create_processor`: calls
`create_stream_processor` and sets `changed=True`; there is no waiter. -/
def create_processor (checkMode : Bool) (mutExc : Option PyExc) :
    FnResult × List Api :=
  if checkMode then (.checkModeExit, [])
  else
    match mutExc with
    | none => (.ret true Val.vnone, [.call "create_stream_processor"])
    | some e =>
        if rek_handler_catches e then (.failJson, [.call "create_stream_processor"])
        else (.escaped e, [.call "create_stream_processor"])

/-- `rekognition_stream_processor.update_processor`: the common-key diff
between `params` and `result["processor_config"]`; when a common key
differs and the stored `Status` is `STOPPED` or `FAILED` it calls
`delete_stream_processor` and then `stream_delete_waiter(client, module)`.
`stream_delete_waiter` is bound nowhere in the module, so that call raises
`NameError`, which the surrounding `except (BotoCoreError, ClientError)`
clause does not catch; the planned `create_stream_processor` call is never
reached.  `mutExc` is the outcome of the `delete_stream_processor` call
itself. -/
def update_processor (checkMode : Bool) (params cfg : Dict)
    (mutExc : Option PyExc) : FnResult × List Api :=
  if checkMode then (.checkModeExit, [])
  else if any_param_changed params cfg then
    if dget cfg "Status" == Val.vstr "STOPPED"
        || dget cfg "Status" == Val.vstr "FAILED" then
      match mutExc with
      | none =>
          if rek_handler_catches PyExc.nameError then
            (.failJson, [.call "delete_stream_processor"])
          else (.escaped PyExc.nameError, [.call "delete_stream_processor"])
      | some e =>
          if rek_handler_catches e then (.failJson, [.call "delete_stream_processor"])
          else (.escaped e, [.call "delete_stream_processor"])
    else (.ret false Val.vnone, [])
  else (.ret false Val.vnone, [])

/-- `rekognition_stream_processor.delete_processor`: calls
`delete_stream_processor` and sets `changed=True`; there is no waiter. -/
def delete_processor (checkMode : Bool) (mutExc : Option PyExc) :
    FnResult × List Api :=
  if checkMode then (.checkModeExit, [])
  else
    match mutExc with
    | none => (.ret true Val.vnone, [.call "delete_stream_processor"])
    | some e =>
        if rek_handler_catches e then (.failJson, [.call "delete_stream_processor"])
        else (.escaped e, [.call "delete_stream_processor"])

/-- Dispatch of `rekognition_stream_processor.main`: the final `exit_json`
reports `result["changed"]`, which starts as `False` and is set by the
create/update/delete helpers. -/
def rek_main (checkMode : Bool) (state : String) (params : Dict)
    (chkApi : Except PyExc (Option Dict)) (mutExc : Option PyExc) :
    FnResult × List Api :=
  match processor_exists checkMode chkApi with
  | .checkModeTaken => (.checkModeExit, [])
  | .failed => (.failJson, [.call "list_stream_processors"])
  | .escaped e => (.escaped e, [.call "list_stream_processors"])
  | .found cfg =>
      let pre := [Api.call "list_stream_processors", Api.call "describe_stream_processor"]
      if state == "present" then
        let r := update_processor checkMode params cfg mutExc
        (r.1, pre ++ r.2)
      else if state == "absent" then
        let r := delete_processor checkMode mutExc
        (r.1, pre ++ r.2)
      else (.ret false Val.vnone, pre)
  | .absent =>
      let pre := [Api.call "list_stream_processors"]
      if state == "present" then
        let r := create_processor checkMode mutExc
        (r.1, pre ++ r.2)
      else (.ret false Val.vnone, pre)

/-! ### redshift_cluster -/

/-- Outcome of `RedshiftConnection.get_redshift_cluster`. -/
inductive RsCheck where
  | found
  | missing
  | failed
  | escaped (e : PyExc)
deriving DecidableEq, Repr

/-- `RedshiftConnection.get_redshift_cluster`: `describe_clusters` on the
declared identifier; `ClusterNotFoundFault` is caught and reported as the
string `missing`; other `ClientError`/`BotoCoreError` exceptions become
`fail_json_aws`; a successful call is reported as `found`. -/
def get_redshift_cluster (api : Except PyExc Unit) : RsCheck :=
  match api with
  | .ok _ => .found
  | .error e =>
      if e == .clusterNotFound then .missing
      else if e == .clientError || e == .botoCoreError then .failed
      else .escaped e

/-- Comparison `cluster_info["Clusters"][0]["NumberOfNodes"] > 1` (the
stored value is an integer in every describe response). -/
def vgtOne : Val → Bool
  | .vint n => 1 < n
  | _ => false

/-- The `vpc_args` block of `modify_redshift_cluster`: `EnhancedVpcRouting`
is included only when the stored value differs from the declared one. -/
def rs_vpc_args (mp cluster : Dict) : Dict :=
  if !(dget cluster "EnhancedVpcRouting" == dget mp "enhanced_vpc_routing") then
    dset [] "EnhancedVpcRouting" (dget mp "enhanced_vpc_routing")
  else []

/-- The `network_args` block of `modify_redshift_cluster`: note that the
source stores the declared `publicly_accessible` value under the
`ClusterType` request key. -/
def rs_network_args (mp cluster : Dict) : Dict :=
  let a : Dict := []
  let a := if !(dget cluster "PubliclyAccessible" == dget mp "publicly_accessible") then
      dset a "ClusterType" (dget mp "publicly_accessible") else a
  if !(dget cluster "ElasticIp" == dget mp "elastic_ip") then
    dset a "ElasticIp" (dget mp "elastic_ip")
  else a

/-- The `resize_args` block of `modify_redshift_cluster`. -/
def rs_resize_args (mp cluster : Dict) : Dict :=
  let a : Dict := []
  let a := if dget mp "cluster_type" == Val.vstr "single-node"
      && vgtOne (dget cluster "NumberOfNodes") then
    dset a "ClusterType" (dget mp "cluster_type") else a
  let a := if dget mp "cluster_type" == Val.vstr "multi-node"
      && !(dget cluster "NumberOfNodes" == dget mp "number_of_nodes") then
    dset (dset a "ClusterType" (dget mp "cluster_type")) "NumberOfNodes" (dget mp "number_of_nodes")
  else a
  if !(dget cluster "NodeType" == dget mp "node_type") then
    dset (dset a "ClusterType" (dget mp "cluster_type")) "NodeType" (dget mp "node_type")
  else a

/-- The request-key / option-name table of the `remaining_args` block of
`modify_redshift_cluster`. -/
def rs_remaining_map : List (String × String) :=
  [("MasterUserPassword", "password"),
   ("ClusterSecurityGroups", "cluster_security_groups"),
   ("VpcSecurityGroupIds", "vpc_security_group_ids"),
   ("PreferredMaintenanceWindow", "preferred_maintenance_window"),
   ("ClusterParameterGroupName", "cluster_parameter_group_name"),
   ("HsmClientCertificateIdentifier", "hsm_client_certificate_identifier"),
   ("HsmConfigurationIdentifier", "hsm_configuration_identifier"),
   ("AutomatedSnapshotRetentionPeriod", "automated_snapshot_retention_period"),
   ("ClusterVersion", "cluster_version"),
   ("AllowVersionUpgrade", "allow_version_upgrade")]

/-- The `remaining_args` block: every option of the table present in
`module.params` with a value other than `None` is copied, falsy values
such as `False` included (`if v in module.params and
module.params.get(v) != None`). -/
def rs_remaining_args (mp : Dict) : Dict :=
  rs_remaining_map.foldl
    (fun args kv =>
      if hasKey mp kv.2 && !(dget mp kv.2 == Val.vnone) then
        dset args kv.1 (dget mp kv.2)
      else args)
    []

/-- `RedshiftConnection.modify_redshift_cluster` on the success fixture:
after the initial `describe_clusters`, the four `modify_cluster` calls
(vpc, network, resize, remaining) are each issued unconditionally — the
argument dictionaries may be empty but the calls still happen — and each
is followed by the `cluster_available` waiter; a final `describe_clusters`
collects the facts.  The function returns the trace together with the four
argument dictionaries. -/
def modify_redshift_cluster (mp cluster : Dict) : List Api × List Dict :=
  ([.call "describe_clusters",
    .call "modify_cluster", .wait "cluster_available",
    .call "modify_cluster", .wait "cluster_available",
    .call "modify_cluster", .wait "cluster_available",
    .call "modify_cluster", .wait "cluster_available",
    .call "describe_clusters"],
   [rs_vpc_args mp cluster, rs_network_args mp cluster,
    rs_resize_args mp cluster, rs_remaining_args mp])

/-- Dispatch of `redshift_cluster.main` (success fixture for the mutation
calls): present+missing creates and exits `changed=True`; present+found
runs `modify_redshift_cluster` and exits `changed=True` unconditionally;
absent+found deletes and exits `changed=True`; absent+missing exits
`changed=False`. -/
def redshift_main (mp cluster : Dict) (checkApi : Except PyExc Unit) :
    FnResult × List Api :=
  let state := dget mp "state"
  match get_redshift_cluster checkApi with
  | .failed => (.failJson, [.call "describe_clusters"])
  | .escaped e => (.escaped e, [.call "describe_clusters"])
  | .found =>
      if state == Val.vstr "present" then
        let r := modify_redshift_cluster mp cluster
        (.ret true Val.vnone, Api.call "describe_clusters" :: r.1)
      else if state == Val.vstr "absent" then
        (.ret true Val.vnone,
         [.call "describe_clusters", .call "delete_cluster", .wait "cluster_deleted"])
      else (.ret false Val.vnone, [.call "describe_clusters"])
  | .missing =>
      if state == Val.vstr "present" then
        (.ret true Val.vnone,
         [.call "describe_clusters", .call "create_cluster",
          .wait "cluster_available", .call "describe_clusters"])
      else (.ret false Val.vnone, [.call "describe_clusters"])

/-! ### snowball_address -/

/-- Outcome of the snowball existence checks (`address_exists` /
`job_exists`): these functions return `True`/`False` and stash the found
identifier into `result`; they never call `fail_json_aws`, and any
exception outside `(ClientError, IndexError)` propagates. -/
inductive AddrCheck where
  | found (ident : String)
  | absent
  | escaped (e : PyExc)
deriving DecidableEq, Repr

/-- `snowball_address.address_exists`: lists the addresses (`api` carries
each entry as its `AddressId` paired with the entry dictionary after
`del i["AddressId"]`) and returns `True` on the first entry equal to
`params`.  Only `ClientError` and `IndexError` are caught (returning
`False`); in particular a `BotoCoreError` propagates uncaught.  In check
mode the function merely presets a placeholder `address_id` in `result`
and still performs the same scan. -/
def address_exists (_checkMode : Bool)
    (api : Except PyExc (List (String × Dict))) (params : Dict) : AddrCheck :=
  match api with
  | .error e =>
      if e == PyExc.clientError || e == PyExc.indexError then .absent
      else .escaped e
  | .ok addrs =>
      match addrs.find? (fun i => dictEq i.2 params) with
      | some i => .found i.1
      | none => .absent

/-- The request-dictionary construction of `snowball_address.main`
(lines 163-177): the required options are copied unconditionally, the
optional `company`/`street2`/`street3` only when truthy, and
`IsRestricted` is copied unconditionally from the `restricted` option —
including its default value `False`. -/
def snowball_address_build (mp : Dict) : Dict :=
  let p := dset [] "Name" (dget mp "name")
  let p := if (dget mp "company").truthy then dset p "Company" (dget mp "company") else p
  let p := dset p "Street1" (dget mp "street1")
  let p := if (dget mp "street2").truthy then dset p "Street2" (dget mp "street2") else p
  let p := if (dget mp "street3").truthy then dset p "Street3" (dget mp "street3") else p
  let p := dset p "City" (dget mp "city")
  let p := dset p "StateOrProvince" (dget mp "state_or_province")
  let p := dset p "Country" (dget mp "country")
  let p := dset p "PostalCode" (dget mp "postal_code")
  let p := dset p "PhoneNumber" (dget mp "phone_number")
  dset p "IsRestricted" (dget mp "restricted")

/-- `snowball_address.create_address`: calls `create_address` with the
request dictionary; there is no waiter. -/
def create_address (checkMode : Bool) (mutExc : Option PyExc) (newId : String) :
    FnResult × List Api :=
  if checkMode then (.checkModeExit, [])
  else
    match mutExc with
    | none => (.ret true (Val.vstr newId), [.call "create_address"])
    | some e =>
        if e == PyExc.botoCoreError || e == PyExc.clientError then
          (.failJson, [.call "create_address"])
        else (.escaped e, [.call "create_address"])

/-- Dispatch of `snowball_address.main`: the module has no `state` option;
it creates the address when no identical one exists, otherwise exits with
`changed=False` and the found id. -/
def snowball_address_main (checkMode : Bool) (mp : Dict)
    (api : Except PyExc (List (String × Dict))) (mutExc : Option PyExc)
    (newId : String) : FnResult × List Api :=
  let params := snowball_address_build mp
  match address_exists checkMode api params with
  | .escaped e => (.escaped e, [.call "describe_addresses"])
  | .found i => (.ret false (Val.vstr i), [.call "describe_addresses"])
  | .absent =>
      let r := create_address checkMode mutExc newId
      (r.1, Api.call "describe_addresses" :: r.2)

/-! ### snowball_job -/

/-- The argument spec declared by `snowball_job.main` (lines 194-206): it
is a copy of the address-module spec and contains neither `state` nor
`description` nor any job option. -/
def snowball_job_argument_spec : List String :=
  ["name", "company", "street1", "street2", "street3", "city",
   "state_or_province", "country", "postal_code", "phone_number", "restricted"]

/-- The names bound at module level in snowball_job.py; `delete_job`, the
name referenced by the `state=absent` branch of `main`, is not among
them (the defined function is `cancel_job`). -/
def snowball_job_defined_names : List String :=
  ["job_exists", "create_job", "update_job", "cancel_job", "main"]

/-- The request-dictionary construction of `snowball_job.main`
(lines 214-228): identical to the snowball_address construction — the
required options are copied unconditionally, `company`/`street2`/`street3`
only when truthy, and `IsRestricted` unconditionally from the `restricted`
option, its default `False` included. -/
def snowball_job_build (mp : Dict) : Dict :=
  let p := dset [] "Name" (dget mp "name")
  let p := if (dget mp "company").truthy then dset p "Company" (dget mp "company") else p
  let p := dset p "Street1" (dget mp "street1")
  let p := if (dget mp "street2").truthy then dset p "Street2" (dget mp "street2") else p
  let p := if (dget mp "street3").truthy then dset p "Street3" (dget mp "street3") else p
  let p := dset p "City" (dget mp "city")
  let p := dset p "StateOrProvince" (dget mp "state_or_province")
  let p := dset p "Country" (dget mp "country")
  let p := dset p "PostalCode" (dget mp "postal_code")
  let p := dset p "PhoneNumber" (dget mp "phone_number")
  dset p "IsRestricted" (dget mp "restricted")

/-- `snowball_job.job_exists`: lists the jobs (`api` carries each
`JobListEntries` element as its `JobId` paired with its `Description`) and
returns `True` on the first entry whose description equals the declared
`description` option.  Only `ClientError` and `IndexError` are caught;
a `BotoCoreError` propagates uncaught.  Check mode merely presets a
placeholder `job_id`. -/
def job_exists (_checkMode : Bool)
    (api : Except PyExc (List (String × Val))) (description : Val) : AddrCheck :=
  match api with
  | .error e =>
      if e == PyExc.clientError || e == PyExc.indexError then .absent
      else .escaped e
  | .ok jobs =>
      match jobs.find? (fun i => i.2 == description) with
      | some i => .found i.1
      | none => .absent

/-- `snowball_job.create_job`. -/
def create_job (checkMode : Bool) (mutExc : Option PyExc) (newId : String) :
    FnResult × List Api :=
  if checkMode then (.checkModeExit, [])
  else
    match mutExc with
    | none => (.ret true (Val.vstr newId), [.call "create_job"])
    | some e =>
        if e == PyExc.botoCoreError || e == PyExc.clientError then
          (.failJson, [.call "create_job"])
        else (.escaped e, [.call "create_job"])

/-- `snowball_job.update_job`: adds `JobId` to the request and calls
`update_job`. -/
def update_job (checkMode : Bool) (mutExc : Option PyExc) (jobId : String) :
    FnResult × List Api :=
  if checkMode then (.checkModeExit, [])
  else
    match mutExc with
    | none => (.ret true (Val.vstr jobId), [.call "update_job"])
    | some e =>
        if e == PyExc.botoCoreError || e == PyExc.clientError then
          (.failJson, [.call "update_job"])
        else (.escaped e, [.call "update_job"])

/-- `snowball_job.cancel_job`: defined but never referenced by `main`. -/
def cancel_job (checkMode : Bool) (mutExc : Option PyExc) (jobId : String) :
    FnResult × List Api :=
  if checkMode then (.checkModeExit, [])
  else
    match mutExc with
    | none => (.ret true (Val.vstr jobId), [.call "cancel_job"])
    | some e =>
        if e == PyExc.botoCoreError || e == PyExc.clientError then
          (.failJson, [.call "cancel_job"])
        else (.escaped e, [.call "cancel_job"])

/-- Dispatch of `snowball_job.main`: `desired_state =
module.params.get("state")`, but `state` is not in the argument spec, so
on any parameter dictionary the framework accepts this is `None` and
neither the `present` nor the `absent` branch runs.  Were the `absent`
branch reached with an existing job, it would evaluate the unbound name
`delete_job` and raise `NameError`. -/
def snowball_job_main (checkMode : Bool) (mp : Dict)
    (api : Except PyExc (List (String × Val))) (mutExc : Option PyExc)
    (newId : String) : FnResult × List Api :=
  let desired := dget mp "state"
  match job_exists checkMode api (dget mp "description") with
  | .escaped e => (.escaped e, [.call "list_jobs"])
  | .found jid =>
      if desired == Val.vstr "present" then
        let r := update_job checkMode mutExc jid
        (r.1, Api.call "list_jobs" :: r.2)
      else if desired == Val.vstr "absent" then
        (.escaped PyExc.nameError, [.call "list_jobs"])
      else (.ret false (Val.vstr jid), [.call "list_jobs"])
  | .absent =>
      if desired == Val.vstr "present" then
        let r := create_job checkMode mutExc newId
        (r.1, Api.call "list_jobs" :: r.2)
      else (.ret false Val.vnone, [.call "list_jobs"])

/-! ### aws_storage_gateway -/

/-- The exact text of line 424 of aws_storage_gateway.py (inside
`update_resource`, the `nfs_file_share` branch). -/
def sg_line_424 : String :=
  "            if params[\x27NFSFileShareDefaults\x27] != current_params[\x27NFSFileShareInfoList\x27][0][\x27NFSFileShareDefaults\x27]"

/-- Strip leading and trailing spaces from a line (as a character list). -/
def pyTrimChars (cs : List Char) : List Char :=
  ((cs.dropWhile (fun c => c == ' ')).reverse.dropWhile (fun c => c == ' ')).reverse

/-- Whether a Python source line is the header of an `if` statement. -/
def pyIfHeader (s : String) : Bool :=
  (pyTrimChars s.data).take 3 == ['i', 'f', ' ']

/-- CPython grammar: the header of a compound `if` statement must end with
a colon, otherwise compiling the file raises `SyntaxError`. -/
def pyIfHeaderColonOk (s : String) : Bool :=
  (pyTrimChars s.data).getLast? == some ':'

/-- Whether importing aws_storage_gateway.py succeeds: the file compiles
only if line 424, an `if` header, ends with a colon. -/
def sg_loads : Bool := pyIfHeaderColonOk sg_line_424

/-- Running the storage-gateway module on any parameter dictionary: the
interpreter only reaches `main` when the file compiles; `none` means that
the module import died with `SyntaxError` before any operation of the
module (existence check, create, update, delete) could execute. -/
def sg_module_run (_mp : Dict) : Option Unit :=
  if sg_loads then some () else none

/-- The `cached_iscsi_volume` request-dictionary construction of
`aws_storage_gateway.main` (lines 676-691) as written in the source: every
option is copied to its provider-cased key only when truthy.  Because of
the syntax error at line 424 the file never compiles, so this construction
is never actually executed (see `sg_module_run`). -/
def sg_cached_iscsi_volume_build (mp : Dict) : Dict :=
  let p : Dict := []
  let p := if (dget mp "gateway_arn").truthy then dset p "GatewayARN" (dget mp "gateway_arn") else p
  let p := if (dget mp "volume_size").truthy then dset p "VolumeSizeInBytes" (dget mp "volume_size") else p
  let p := if (dget mp "snapshot_id").truthy then dset p "SnapshotId" (dget mp "snapshot_id") else p
  let p := if (dget mp "target_name").truthy then dset p "TargetName" (dget mp "target_name") else p
  let p := if (dget mp "source_volume_arn").truthy then dset p "SourceVolumeARN" (dget mp "source_volume_arn") else p
  let p := if (dget mp "network_interface").truthy then dset p "NetworkInterfaceId" (dget mp "network_interface") else p
  if (dget mp "volume_token").truthy then dset p "ClientToken" (dget mp "volume_token") else p

/-! ### Option-to-request mapping tables

The (provider key, option name) pairs of the guarded copy statements, read
off the respective request-building blocks of the sources, together with
Boolean predicates stating what the claimed mapping discipline means for
one pair.  The predicates restate the claim; the build functions above
are the source translations they are checked against. -/

/-- Guarded copying, as the claim asserts it: the provider key is present
exactly when the option value is truthy, and then it carries the declared
value. -/
def guardedCopyOk (build mp : Dict) (pair : String × String) : Bool :=
  (hasKey build pair.1 == (dget mp pair.2).truthy)
    && (dget build pair.1
        == (if (dget mp pair.2).truthy then dget mp pair.2 else Val.vnone))

/-- Unconditional copying of a required option: the provider key is always
present and carries the declared value. -/
def requiredCopyOk (build mp : Dict) (pair : String × String) : Bool :=
  (hasKey build pair.1 == true) && (dget build pair.1 == dget mp pair.2)

/-- The redshift `remaining_args` discipline: the provider key is present
exactly when the option is in `module.params` with a value other than
`None` — falsy values such as `False`, `0` and the empty string included —
and then it carries the declared value. -/
def nonNoneCopyOk (build mp : Dict) (pair : String × String) : Bool :=
  (hasKey build pair.1 == (hasKey mp pair.2 && !(dget mp pair.2 == Val.vnone)))
    && (dget build pair.1
        == (if hasKey mp pair.2 && !(dget mp pair.2 == Val.vnone) then dget mp pair.2
            else Val.vnone))

/-- The guarded option mappings of `aws_neptune_instance.main`
(lines 323-385). -/
def neptune_guarded_map : List (String × String) :=
  [("DatabaseName", "database_name"), ("MasterUsername", "master_username"),
   ("MasterUserPassword", "master_password"), ("DBSecurityGroups", "db_security_groups"),
   ("VpcSecurityGroupIds", "vpc_security_groups"), ("AvailabilityZone", "availability_zone"),
   ("DBSubnetGroupName", "db_subnet_group"), ("PreferredMaintenanceWindow", "maintenance_window"),
   ("DBParameterGroupName", "parameter_group"), ("MultiAZ", "multi_az"),
   ("EngineVersion", "db_engine_version"), ("AutoMinorVersionUpgrade", "auto_minor_version_upgrade"),
   ("LicenseModel", "license_model"), ("Iops", "iops"),
   ("OptionGroupName", "option_group"), ("PubliclyAccessible", "publicly_accessible"),
   ("DBClusterIdentifier", "db_cluster"), ("TdeCredentialArn", "tde_credential_arn"),
   ("TdeCredentialPassword", "tde_credential_password"), ("Domain", "domain"),
   ("CopyTagsToSnapshot", "copy_tags_to_snapshot"), ("MonitoringInterval", "monitoring_interval"),
   ("MonitoringRoleArn", "monitoring_role_arn"), ("DomainIAMRoleName", "domain_role_arn"),
   ("PromotionTier", "promotion_tier"), ("Timezone", "timezone"),
   ("EnableIAMDatabaseAuthentication", "enable_iam_auth"),
   ("EnablePerformanceInsights", "enable_performance_insights"),
   ("PerformanceInsightsKMSKeyId", "performance_insights_kms_key"),
   ("EnableCloudwatchLogsExports", "enable_cloudwatch_logs_export")]

/-- The unconditional mappings of `aws_neptune_instance.main` (the
required `name`/`instance_class` options and the defaulted `db_engine`). -/
def neptune_required_map : List (String × String) :=
  [("DBInstanceIdentifier", "name"), ("DBInstanceClass", "instance_class"),
   ("Engine", "db_engine")]

/-- The guarded subject-field mappings of `aws_acm_pca.main`
(lines 273-304). -/
def acm_subject_map : List (String × String) :=
  [("Country", "country"), ("Organization", "organization"),
   ("OrganizationalUnit", "organizational_unit"),
   ("DistinguishedNameQualifier", "name_qualifier"), ("State", "state"),
   ("CommonName", "common_name"), ("SerialNumber", "serial_number"),
   ("Locality", "locality"), ("Title", "title"), ("Surname", "surname"),
   ("GivenName", "given_name"), ("Initials", "initials"),
   ("Pseudonym", "pseudonym"), ("GenerationQualifier", "generation_qualifier")]

/-- The guarded revocation-suboption mappings of `aws_acm_pca.main`
(lines 309-314); `Enabled` is copied unconditionally and is therefore not
in this table. -/
def acm_revocation_guarded_map : List (String × String) :=
  [("ExpirationInDays", "expiration"), ("CustomCname", "custom_cname"),
   ("S3BucketName", "s3_bucket")]

/-- The guarded option mappings shared by `snowball_address.main` and
`snowball_job.main`. -/
def snowball_guarded_map : List (String × String) :=
  [("Company", "company"), ("Street2", "street2"), ("Street3", "street3")]

/-- The unconditionally copied required options shared by
`snowball_address.main` and `snowball_job.main`; `IsRestricted` is copied
unconditionally from the optional `restricted` flag and is treated
separately. -/
def snowball_required_map : List (String × String) :=
  [("Name", "name"), ("Street1", "street1"), ("City", "city"),
   ("StateOrProvince", "state_or_province"), ("Country", "country"),
   ("PostalCode", "postal_code"), ("PhoneNumber", "phone_number")]

/-- The guarded option mappings of the `cached_iscsi_volume` block of
`aws_storage_gateway.main` (lines 676-691). -/
def sg_cached_iscsi_map : List (String × String) :=
  [("GatewayARN", "gateway_arn"), ("VolumeSizeInBytes", "volume_size"),
   ("SnapshotId", "snapshot_id"), ("TargetName", "target_name"),
   ("SourceVolumeARN", "source_volume_arn"), ("NetworkInterfaceId", "network_interface"),
   ("ClientToken", "volume_token")]

/-! ## Dictionary lemmas -/

theorem dget_dset_self (d : Dict) (k : String) (v : Val) :
    dget (dset d k v) k = v := by
  induction d with
  | nil => simp [dset, dget]
  | cons p t ih =>
    by_cases hp : (p.1 == k) = true
    · simp [dset, dget, hp]
    · simp [dset, dget, hp, ih]

theorem dget_dset_ne (d : Dict) (k c : String) (v : Val) (h : c ≠ k) :
    dget (dset d k v) c = dget d c := by
  have hkc : ¬ ((k : String) == c) = true := by
    simp only [beq_iff_eq]
    exact fun hh => h hh.symm
  induction d with
  | nil => simp [dset, dget, hkc]
  | cons p t ih =>
    by_cases hp : (p.1 == k) = true
    · have hpc : ¬ (p.1 == c) = true := by
        rw [beq_iff_eq] at hp ⊢
        rw [hp]
        exact fun hh => h hh.symm
      simp [dset, dget, hp, hkc, hpc]
    · by_cases hpc : (p.1 == c) = true
      · simp [dset, dget, hp, hpc]
      · simp [dset, dget, hp, hpc, ih]

theorem dget_dset (d : Dict) (k c : String) (v : Val) :
    dget (dset d k v) c = (if c == k then v else dget d c) := by
  by_cases h : c = k
  · subst h
    simp [dget_dset_self]
  · simp [h, dget_dset_ne d k c v h]

theorem hasKey_dset (d : Dict) (k c : String) (v : Val) :
    hasKey (dset d k v) c = (hasKey d c || k == c) := by
  induction d with
  | nil => simp [dset, hasKey]
  | cons p t ih =>
    by_cases hp : (p.1 == k) = true
    · have hpk : p.1 = k := (beq_iff_eq ..).mp hp
      by_cases hkc : ((k : String) == c) = true
      · simp [dset, hasKey, hp, hkc, hpk]
      · simp [dset, hasKey, hp, hkc, hpk]
    · by_cases hpc : (p.1 == c) = true
      · simp [dset, hasKey, hp, hpc]
      · simp [dset, hasKey, hp, hpc, ih]

theorem hasKey_ite (c : Prop) [Decidable c] (a b : Dict) (k : String) :
    hasKey (if c then a else b) k = (if c then hasKey a k else hasKey b k) := by
  by_cases h : c <;> simp [h]

theorem dget_ite (c : Prop) [Decidable c] (a b : Dict) (k : String) :
    dget (if c then a else b) k = (if c then dget a k else dget b k) := by
  by_cases h : c <;> simp [h]

theorem hasKey_iff_mem_dkeys (d : Dict) (k : String) :
    hasKey d k = true ↔ k ∈ dkeys d := by
  induction d with
  | nil => simp [hasKey, dkeys]
  | cons p t ih =>
    simp [hasKey, dkeys, ih, Bool.or_eq_true, beq_iff_eq]
    constructor
    · rintro (h | h)
      · exact Or.inl h.symm
      · exact Or.inr (by simpa [dkeys] using h)
    · rintro (h | h)
      · exact Or.inl h.symm
      · exact Or.inr (by simpa [dkeys] using h)

theorem val_beq_eq_decide (a b : Val) : (a == b) = decide (a = b) := rfl

theorem dget_of_hasKey_false (d : Dict) (k : String) (h : hasKey d k = false) :
    dget d k = Val.vnone := by
  induction d with
  | nil => rfl
  | cons p t ih =>
    simp only [hasKey, Bool.or_eq_false_iff] at h
    simp [dget, h.1, ih h.2]

/-! ## Claims -/

/-- C1: for `aws_acm_pca.update_pca` and
`aws_neptune_instance.update_instance`, given an existing resource with a
stored current configuration, exactly one update API call
(`update_certificate_authority` / `modify_db_instance`) is issued if and
only if some key common to the desired-params dictionary and the current
configuration has unequal values; when no common key differs, no update
call is issued and the function returns `changed=False` with the existing
ARN. -/
theorem C1_update_call_iff_common_key_differs (params cfg : Dict) (respArn : Val) :
    ((update_pca false params cfg none).2.count (Api.call "update_certificate_authority") = 1
      ↔ any_param_changed params cfg = true)
    ∧ update_pca false params cfg none
        = (if any_param_changed params cfg then
            (FnResult.ret true (dget cfg "Arn"),
             [Api.call "update_certificate_authority", Api.wait "pca_available"])
          else (FnResult.ret false (dget cfg "Arn"), []))
    ∧ ((update_instance false params cfg none respArn).2.count (Api.call "modify_db_instance") = 1
      ↔ any_param_changed params cfg = true)
    ∧ update_instance false params cfg none respArn
        = (if any_param_changed params cfg then
            (FnResult.ret true respArn,
             [Api.call "modify_db_instance", Api.wait "db_instance_available"])
          else (FnResult.ret false (dget cfg "DBInstanceArn"), [])) := by
  cases h : any_param_changed params cfg <;>
    simp [update_pca, update_instance, h, List.count_cons, List.count_nil]

/-- Witness for C1 at a concrete differing fixture. -/
theorem C1_update_call_iff_common_key_differs_witness :
    ((update_pca false [("A", Val.vint 1)] [("A", Val.vint 2), ("Arn", Val.vstr "x")]
        none).2.count (Api.call "update_certificate_authority") = 1
      ↔ any_param_changed [("A", Val.vint 1)] [("A", Val.vint 2), ("Arn", Val.vstr "x")] = true)
    ∧ update_pca false [("A", Val.vint 1)] [("A", Val.vint 2), ("Arn", Val.vstr "x")] none
        = (if any_param_changed [("A", Val.vint 1)] [("A", Val.vint 2), ("Arn", Val.vstr "x")] then
            (FnResult.ret true (dget [("A", Val.vint 2), ("Arn", Val.vstr "x")] "Arn"),
             [Api.call "update_certificate_authority", Api.wait "pca_available"])
          else (FnResult.ret false (dget [("A", Val.vint 2), ("Arn", Val.vstr "x")] "Arn"), []))
    ∧ ((update_instance false [("A", Val.vint 1)] [("A", Val.vint 2), ("Arn", Val.vstr "x")]
        none (Val.vstr "r")).2.count (Api.call "modify_db_instance") = 1
      ↔ any_param_changed [("A", Val.vint 1)] [("A", Val.vint 2), ("Arn", Val.vstr "x")] = true)
    ∧ update_instance false [("A", Val.vint 1)] [("A", Val.vint 2), ("Arn", Val.vstr "x")]
        none (Val.vstr "r")
        = (if any_param_changed [("A", Val.vint 1)] [("A", Val.vint 2), ("Arn", Val.vstr "x")] then
            (FnResult.ret true (Val.vstr "r"),
             [Api.call "modify_db_instance", Api.wait "db_instance_available"])
          else (FnResult.ret false
            (dget [("A", Val.vint 2), ("Arn", Val.vstr "x")] "DBInstanceArn"), [])) :=
  C1_update_call_iff_common_key_differs [("A", Val.vint 1)]
    [("A", Val.vint 2), ("Arn", Val.vstr "x")] (Val.vstr "r")

/-- C3 counterexample: in `snowball_address.address_exists` only
`ClientError` and `IndexError` are caught; a `BotoCoreError` raised by the
`describe_addresses` call during the state check propagates out of the
module uncaught — it is neither treated as absent nor surfaced via
`fail_json_aws`, refuting the claimed uniform two-outcome policy. -/
theorem C3_counterexample_snowball_botocore :
    address_exists false (Except.error PyExc.botoCoreError) []
        = AddrCheck.escaped PyExc.botoCoreError
    ∧ address_exists false (Except.error PyExc.botoCoreError) [] ≠ AddrCheck.absent := by
  refine ⟨rfl, by decide⟩

/-- C3 amended: in aws_acm_pca, aws_neptune_instance, redshift_cluster and
rekognition_stream_processor, a `ClientError` or `BotoCoreError` raised
during the state check yields `fail_json_aws` (with the specific
not-found client errors treated as absent/missing); in the snowball
modules `ClientError` and `IndexError` are treated as absent while a
`BotoCoreError` escapes uncaught. -/
theorem C3_state_check_exception_policy (st : String) (cn dsc : Val) (p : Dict) :
    pca_exists false st (Except.error PyExc.clientError) cn = CheckResult.failed
    ∧ pca_exists false st (Except.error PyExc.botoCoreError) cn = CheckResult.failed
    ∧ instance_exists false st (Except.error PyExc.dbInstanceNotFound)
        = CheckResult.status false []
    ∧ instance_exists false st (Except.error PyExc.clientError) = CheckResult.failed
    ∧ instance_exists false st (Except.error PyExc.botoCoreError) = CheckResult.failed
    ∧ get_redshift_cluster (Except.error PyExc.clusterNotFound) = RsCheck.missing
    ∧ get_redshift_cluster (Except.error PyExc.clientError) = RsCheck.failed
    ∧ get_redshift_cluster (Except.error PyExc.botoCoreError) = RsCheck.failed
    ∧ processor_exists false (Except.error PyExc.clientError) = ProcCheck.failed
    ∧ processor_exists false (Except.error PyExc.botoCoreError) = ProcCheck.failed
    ∧ address_exists false (Except.error PyExc.clientError) p = AddrCheck.absent
    ∧ address_exists false (Except.error PyExc.indexError) p = AddrCheck.absent
    ∧ address_exists false (Except.error PyExc.botoCoreError) p
        = AddrCheck.escaped PyExc.botoCoreError
    ∧ job_exists false (Except.error PyExc.clientError) dsc = AddrCheck.absent
    ∧ job_exists false (Except.error PyExc.botoCoreError) dsc
        = AddrCheck.escaped PyExc.botoCoreError := by
  simp [pca_exists, instance_exists, get_redshift_cluster, processor_exists,
    address_exists, job_exists, rek_handler_catches]

/-- C8: line 424 of aws_storage_gateway.py is the header of an `if`
statement yet does not end with a colon, so the file is not syntactically
valid Python; importing it raises `SyntaxError`, and for every input no
operation of the storage-gateway module ever executes. -/
theorem C8_storage_gateway_syntax_error (mp : Dict) :
    pyIfHeader sg_line_424 = true
    ∧ pyIfHeaderColonOk sg_line_424 = false
    ∧ sg_loads = false
    ∧ sg_module_run mp = none := by
  refine ⟨by decide, by decide, by decide, ?_⟩
  simp [sg_module_run, sg_loads]
  decide

/-- C10: in `rekognition_stream_processor.update_processor`, whenever some
common key differs and the stored `Status` is `STOPPED` or `FAILED`, the
code calls the undefined name `stream_delete_waiter` right after
`delete_stream_processor`; the resulting `NameError` is not caught by the
`(BotoCoreError, ClientError)` handler, so the update path raises an
unhandled exception instead of completing or reporting failure. -/
theorem C10_update_processor_unhandled_name_error (params cfg : Dict)
    (h1 : any_param_changed params cfg = true)
    (h2 : dget cfg "Status" = Val.vstr "STOPPED" ∨ dget cfg "Status" = Val.vstr "FAILED") :
    update_processor false params cfg none
        = (FnResult.escaped PyExc.nameError, [Api.call "delete_stream_processor"])
    ∧ "stream_delete_waiter" ∉ rek_defined_names
    ∧ rek_handler_catches PyExc.nameError = false := by
  rcases h2 with h2 | h2 <;>
    simp [update_processor, h1, h2, rek_handler_catches, rek_defined_names]

/-- Witness for C10 at a concrete diff and a STOPPED processor. -/
theorem C10_update_processor_unhandled_name_error_witness :
    update_processor false [("RoleArn", Val.vstr "a")]
        [("RoleArn", Val.vstr "b"), ("Status", Val.vstr "STOPPED")] none
        = (FnResult.escaped PyExc.nameError, [Api.call "delete_stream_processor"])
    ∧ "stream_delete_waiter" ∉ rek_defined_names
    ∧ rek_handler_catches PyExc.nameError = false :=
  C10_update_processor_unhandled_name_error
    [("RoleArn", Val.vstr "a")] [("RoleArn", Val.vstr "b"), ("Status", Val.vstr "STOPPED")]
    (by decide) (Or.inl (by decide))

/-- C9: the argument spec of `snowball_job.main` is a copy of the
address-module spec containing neither `state` nor `description` nor any
job option; hence on every parameter dictionary the framework can accept,
`desired_state` is `None`, neither the present nor the absent branch runs,
the module issues no `create_job`/`update_job`/`cancel_job` call and every
normal exit reports `changed=False`; moreover the absent branch references
`delete_job`, a name bound nowhere in the module. -/
theorem C9_snowball_job_branches_unreachable (checkMode : Bool) (mp : Dict)
    (api : Except PyExc (List (String × Val))) (mutExc : Option PyExc) (newId : String)
    (h : ∀ k ∈ dkeys mp, k ∈ snowball_job_argument_spec) :
    "state" ∉ snowball_job_argument_spec
    ∧ "description" ∉ snowball_job_argument_spec
    ∧ dget mp "state" = Val.vnone
    ∧ (snowball_job_main checkMode mp api mutExc newId).2 = [Api.call "list_jobs"]
    ∧ (snowball_job_main checkMode mp api mutExc newId).1.isChanged = false
    ∧ "delete_job" ∉ snowball_job_defined_names := by
  have hstate : dget mp "state" = Val.vnone := by
    apply dget_of_hasKey_false
    cases hk : hasKey mp "state"
    · rfl
    · exfalso
      have := h "state" ((hasKey_iff_mem_dkeys mp "state").mp hk)
      revert this
      decide
  refine ⟨by decide, by decide, hstate, ?_, ?_, by decide⟩ <;>
    cases hj : job_exists checkMode api (dget mp "description") <;>
      simp [snowball_job_main, hj, hstate, FnResult.isChanged]

/-- Witness for C9 on a concrete accepted parameter dictionary. -/
theorem C9_snowball_job_branches_unreachable_witness :
    "state" ∉ snowball_job_argument_spec
    ∧ "description" ∉ snowball_job_argument_spec
    ∧ dget [("name", Val.vstr "n")] "state" = Val.vnone
    ∧ (snowball_job_main false [("name", Val.vstr "n")] (Except.ok []) none "J").2
        = [Api.call "list_jobs"]
    ∧ (snowball_job_main false [("name", Val.vstr "n")] (Except.ok []) none "J").1.isChanged
        = false
    ∧ "delete_job" ∉ snowball_job_defined_names :=
  C9_snowball_job_branches_unreachable false [("name", Val.vstr "n")]
    (Except.ok []) none "J" (by decide)

/-- C2 counterexample: redshift_cluster, invoked with `state=present` on an
existing cluster for which no key common to the desired-params dictionary
and the stored configuration differs (and whose stored values already
match every declared option the module diffs), still issues four
`modify_cluster` calls and exits `changed=True` — refuting the claim that
every module exits `changed=False` with no mutation call in that
situation. -/
theorem C2_counterexample_redshift_not_idempotent :
    any_param_changed
        [("state", Val.vstr "present"), ("cluster_identifier", Val.vstr "c"),
         ("cluster_type", Val.vstr "single-node"), ("node_type", Val.vstr "dc1.large"),
         ("enhanced_vpc_routing", Val.vbool false), ("publicly_accessible", Val.vbool false),
         ("elastic_ip", Val.vnone)]
        [("ClusterIdentifier", Val.vstr "c"), ("NodeType", Val.vstr "dc1.large"),
         ("NumberOfNodes", Val.vint 1), ("PubliclyAccessible", Val.vbool false),
         ("ElasticIp", Val.vnone), ("EnhancedVpcRouting", Val.vbool false)] = false
    ∧ (redshift_main
        [("state", Val.vstr "present"), ("cluster_identifier", Val.vstr "c"),
         ("cluster_type", Val.vstr "single-node"), ("node_type", Val.vstr "dc1.large"),
         ("enhanced_vpc_routing", Val.vbool false), ("publicly_accessible", Val.vbool false),
         ("elastic_ip", Val.vnone)]
        [("ClusterIdentifier", Val.vstr "c"), ("NodeType", Val.vstr "dc1.large"),
         ("NumberOfNodes", Val.vint 1), ("PubliclyAccessible", Val.vbool false),
         ("ElasticIp", Val.vnone), ("EnhancedVpcRouting", Val.vbool false)]
        (Except.ok ())).1 = FnResult.ret true Val.vnone
    ∧ (redshift_main
        [("state", Val.vstr "present"), ("cluster_identifier", Val.vstr "c"),
         ("cluster_type", Val.vstr "single-node"), ("node_type", Val.vstr "dc1.large"),
         ("enhanced_vpc_routing", Val.vbool false), ("publicly_accessible", Val.vbool false),
         ("elastic_ip", Val.vnone)]
        [("ClusterIdentifier", Val.vstr "c"), ("NodeType", Val.vstr "dc1.large"),
         ("NumberOfNodes", Val.vint 1), ("PubliclyAccessible", Val.vbool false),
         ("ElasticIp", Val.vnone), ("EnhancedVpcRouting", Val.vbool false)]
        (Except.ok ())).2.count (Api.call "modify_cluster") = 4 := by
  decide

/-- C2 amended: for the modules whose update path diffs the common keys —
aws_acm_pca, aws_neptune_instance and rekognition_stream_processor — a
`state=present` run on an existing resource whose current configuration
agrees with the desired params on every common key exits `changed=False`
and issues no create, update or delete call; redshift_cluster instead
always issues four `modify_cluster` calls and exits `changed=True` (see
the counterexample). -/
theorem C2_identical_config_no_mutation (params cfg : Dict) (cn arn respArn : Val)
    (h : any_param_changed params cfg = false) :
    pca_main false "present" params (Except.ok [⟨cn, cfg⟩]) cn none arn
      = (FnResult.ret false (dget cfg "Arn"), [Api.call "list_certificate_authorities"])
    ∧ neptune_main false "present" params (Except.ok cfg) none respArn
      = (FnResult.ret false (dget cfg "DBInstanceArn"), [Api.call "describe_db_instances"])
    ∧ rek_main false "present" params (Except.ok (some cfg)) none
      = (FnResult.ret false Val.vnone,
         [Api.call "list_stream_processors", Api.call "describe_stream_processor"]) := by
  simp [pca_main, pca_exists, pca_scan, update_pca, h, neptune_main, instance_exists,
    update_instance, rek_main, processor_exists, update_processor, List.foldl]

/-- Witness for C2 (amended) at a concrete converged fixture. -/
theorem C2_identical_config_no_mutation_witness :
    pca_main false "present" [("A", Val.vint 1)]
        (Except.ok [⟨Val.vstr "cn", [("A", Val.vint 1), ("Arn", Val.vstr "x")]⟩])
        (Val.vstr "cn") none Val.vnone
      = (FnResult.ret false (dget [("A", Val.vint 1), ("Arn", Val.vstr "x")] "Arn"),
         [Api.call "list_certificate_authorities"])
    ∧ neptune_main false "present" [("A", Val.vint 1)]
        (Except.ok [("A", Val.vint 1), ("Arn", Val.vstr "x")]) none Val.vnone
      = (FnResult.ret false (dget [("A", Val.vint 1), ("Arn", Val.vstr "x")] "DBInstanceArn"),
         [Api.call "describe_db_instances"])
    ∧ rek_main false "present" [("A", Val.vint 1)]
        (Except.ok (some [("A", Val.vint 1), ("Arn", Val.vstr "x")])) none
      = (FnResult.ret false Val.vnone,
         [Api.call "list_stream_processors", Api.call "describe_stream_processor"]) :=
  C2_identical_config_no_mutation [("A", Val.vint 1)]
    [("A", Val.vint 1), ("Arn", Val.vstr "x")] (Val.vstr "cn") Val.vnone Val.vnone
    (by decide)

/-- C4 counterexample: the create path of rekognition_stream_processor
exits normally (`changed=True`) after a successful
`create_stream_processor` call with no waiter invocation anywhere between
the call and `exit_json` — refuting the claim that every successful
mutation path blocks on a waiter. -/
theorem C4_counterexample_rekognition_no_waiter :
    rek_main false "present" [] (Except.ok none) none
      = (FnResult.ret true Val.vnone,
         [Api.call "list_stream_processors", Api.call "create_stream_processor"])
    ∧ (rek_main false "present" [] (Except.ok none) none).2.filter Api.isWait = [] := by
  decide

/-- C4 amended: every successful mutation path of aws_acm_pca
(create/update/delete), aws_neptune_instance (create/update/delete) and
redshift_cluster (create, the four modifies, delete) invokes the
corresponding provider waiter right after its mutation call and before
the final exit; the mutation paths of rekognition_stream_processor
(create, delete), snowball_address (create) and snowball_job
(create, update) invoke no waiter at all. -/
theorem C4_waiter_coverage (params cfg rest cluster : Dict) (arn respArn : Val)
    (nid jid : String) :
    create_pca false none arn
      = (FnResult.ret true arn,
         [Api.call "create_certificate_authority", Api.wait "pca_available"])
    ∧ (update_pca false params cfg none).2
      = (if any_param_changed params cfg then
           [Api.call "update_certificate_authority", Api.wait "pca_available"] else [])
    ∧ delete_pca false none
      = (FnResult.ret true (Val.vstr ""),
         [Api.call "delete_certificate_authority", Api.wait "pca_deleted"])
    ∧ create_instance false none respArn
      = (FnResult.ret true respArn,
         [Api.call "create_db_instance", Api.wait "db_instance_available"])
    ∧ (update_instance false params cfg none respArn).2
      = (if any_param_changed params cfg then
           [Api.call "modify_db_instance", Api.wait "db_instance_available"] else [])
    ∧ delete_instance false none
      = (FnResult.ret true (Val.vstr ""),
         [Api.call "delete_db_instance", Api.wait "db_instance_deleted"])
    ∧ (modify_redshift_cluster params cfg).1.filter Api.isWait
      = [Api.wait "cluster_available", Api.wait "cluster_available",
         Api.wait "cluster_available", Api.wait "cluster_available"]
    ∧ redshift_main (("state", Val.vstr "present") :: rest) cluster
        (Except.error PyExc.clusterNotFound)
      = (FnResult.ret true Val.vnone,
         [Api.call "describe_clusters", Api.call "create_cluster",
          Api.wait "cluster_available", Api.call "describe_clusters"])
    ∧ redshift_main (("state", Val.vstr "absent") :: rest) cluster (Except.ok ())
      = (FnResult.ret true Val.vnone,
         [Api.call "describe_clusters", Api.call "delete_cluster",
          Api.wait "cluster_deleted"])
    ∧ (create_processor false none).2.filter Api.isWait = []
    ∧ (delete_processor false none).2.filter Api.isWait = []
    ∧ (create_address false none nid).2.filter Api.isWait = []
    ∧ (create_job false none nid).2.filter Api.isWait = []
    ∧ (update_job false none jid).2.filter Api.isWait = [] := by
  cases h : any_param_changed params cfg <;>
    simp [create_pca, update_pca, delete_pca, create_instance, update_instance,
      delete_instance, modify_redshift_cluster, redshift_main, get_redshift_cluster,
      create_processor, delete_processor, create_address, create_job, update_job,
      h, Api.isWait, dget]

/-- C5 counterexample: redshift_cluster with `state=present`, an existing
cluster and a differing declared option (`enhanced_vpc_routing`) issues
four `modify_cluster` calls in one invocation, not exactly one — refuting
the single-mutation-call claim. -/
theorem C5_counterexample_redshift_four_modifies :
    ((redshift_main
        [("state", Val.vstr "present"), ("cluster_identifier", Val.vstr "c"),
         ("cluster_type", Val.vstr "single-node"), ("node_type", Val.vstr "dc1.large"),
         ("enhanced_vpc_routing", Val.vbool true), ("publicly_accessible", Val.vbool false),
         ("elastic_ip", Val.vnone)]
        [("ClusterIdentifier", Val.vstr "c"), ("NodeType", Val.vstr "dc1.large"),
         ("NumberOfNodes", Val.vint 1), ("PubliclyAccessible", Val.vbool false),
         ("ElasticIp", Val.vnone), ("EnhancedVpcRouting", Val.vbool false)]
        (Except.ok ())).2.count (Api.call "modify_cluster") = 4)
    ∧ ¬ ((redshift_main
        [("state", Val.vstr "present"), ("cluster_identifier", Val.vstr "c"),
         ("cluster_type", Val.vstr "single-node"), ("node_type", Val.vstr "dc1.large"),
         ("enhanced_vpc_routing", Val.vbool true), ("publicly_accessible", Val.vbool false),
         ("elastic_ip", Val.vnone)]
        [("ClusterIdentifier", Val.vstr "c"), ("NodeType", Val.vstr "dc1.large"),
         ("NumberOfNodes", Val.vint 1), ("PubliclyAccessible", Val.vbool false),
         ("ElasticIp", Val.vnone), ("EnhancedVpcRouting", Val.vbool false)]
        (Except.ok ())).2.count (Api.call "modify_cluster") = 1) := by
  decide

/-- C5 amended: aws_acm_pca and aws_neptune_instance issue exactly one
mutation call when some common key differs and none otherwise;
redshift_cluster issues four `modify_cluster` calls on every
`state=present` run against an existing cluster; the update path of
rekognition_stream_processor attempts a delete-then-recreate instead of a
modify (and dies on the undefined waiter name after the delete). -/
theorem C5_mutation_call_counts (params cfg : Dict) (respArn : Val) :
    ((update_pca false params cfg none).2.filter (fun a => !a.isWait)).length
      = (if any_param_changed params cfg then 1 else 0)
    ∧ (update_pca false params cfg none).2.count (Api.call "update_certificate_authority")
      = (if any_param_changed params cfg then 1 else 0)
    ∧ ((update_instance false params cfg none respArn).2.filter (fun a => !a.isWait)).length
      = (if any_param_changed params cfg then 1 else 0)
    ∧ (update_instance false params cfg none respArn).2.count (Api.call "modify_db_instance")
      = (if any_param_changed params cfg then 1 else 0)
    ∧ (modify_redshift_cluster params cfg).1.count (Api.call "modify_cluster") = 4 := by
  cases h : any_param_changed params cfg <;>
    simp [update_pca, update_instance, modify_redshift_cluster, h, Api.isWait,
      List.count_cons, List.count_nil]

/-- C6: when `state=absent` and the existence check reports the resource
absent, each module issues no create, update or delete call and exits
`changed=False`, with the reported identifier at its initial value (the
empty string for the ARN-reporting modules). -/
theorem C6_absent_on_absent_resource_is_noop (params cluster rest : Dict)
    (cn arn respArn : Val) :
    pca_main false "absent" params (Except.ok []) cn none arn
      = (FnResult.ret false (Val.vstr ""), [Api.call "list_certificate_authorities"])
    ∧ neptune_main false "absent" params (Except.error PyExc.dbInstanceNotFound) none respArn
      = (FnResult.ret false (Val.vstr ""), [Api.call "describe_db_instances"])
    ∧ rek_main false "absent" params (Except.ok none) none
      = (FnResult.ret false Val.vnone, [Api.call "list_stream_processors"])
    ∧ redshift_main (("state", Val.vstr "absent") :: rest) cluster
        (Except.error PyExc.clusterNotFound)
      = (FnResult.ret false Val.vnone, [Api.call "describe_clusters"]) := by
  simp [pca_main, pca_exists, pca_scan, neptune_main, instance_exists, rek_main,
    processor_exists, redshift_main, get_redshift_cluster, dget, List.foldl]

/-- C7 counterexample: snowball_address copies `IsRestricted`
unconditionally from the optional `restricted` option (line 177), so with
its default falsy value `False` the mapped provider key is still present
in the request dictionary — refuting the claim that every optional falsy
parameter is omitted. -/
theorem C7_counterexample_snowball_is_restricted :
    (Val.vbool false).truthy = false
    ∧ hasKey (snowball_address_build
        [("name", Val.vstr "n"), ("street1", Val.vstr "s"), ("city", Val.vstr "c"),
         ("state_or_province", Val.vstr "st"), ("country", Val.vstr "co"),
         ("postal_code", Val.vstr "pc"), ("phone_number", Val.vstr "ph"),
         ("restricted", Val.vbool false)]) "IsRestricted" = true
    ∧ dget (snowball_address_build
        [("name", Val.vstr "n"), ("street1", Val.vstr "s"), ("city", Val.vstr "c"),
         ("state_or_province", Val.vstr "st"), ("country", Val.vstr "co"),
         ("postal_code", Val.vstr "pc"), ("phone_number", Val.vstr "ph"),
         ("restricted", Val.vbool false)]) "IsRestricted" = Val.vbool false := by
  decide

/-- C7 amended: the truthiness-guarded copying holds for every guarded
option mapping — all thirty guarded mappings of aws_neptune_instance (so
`MultiAZ` is omitted for `multi_az=False` and `MonitoringInterval` for
`monitoring_interval=0`), all fourteen subject mappings and the three
guarded revocation mappings of aws_acm_pca, the three guarded mappings of
each snowball module, and the seven cached-iscsi-volume mappings of
aws_storage_gateway as written (unreachable, since that file never
compiles, C8) — and every required option is copied unconditionally under
exactly its mapped key; however, snowball_address and snowball_job copy
`IsRestricted` and aws_acm_pca copies the revocation `Enabled`
unconditionally, falsy values included, and redshift_cluster copies every
non-`None` value, falsy values included. -/
theorem C7_truthy_option_mapping (mp subject rc : Dict) :
    neptune_guarded_map.all (guardedCopyOk (neptune_build mp) mp) = true
    ∧ neptune_required_map.all (requiredCopyOk (neptune_build mp) mp) = true
    ∧ acm_subject_map.all (guardedCopyOk (acm_subject_params subject) subject) = true
    ∧ acm_revocation_guarded_map.all (guardedCopyOk (acm_revocation_params rc) rc) = true
    ∧ hasKey (acm_revocation_params rc) "Enabled" = true
    ∧ dget (acm_revocation_params rc) "Enabled" = dget rc "enabled"
    ∧ snowball_guarded_map.all (guardedCopyOk (snowball_address_build mp) mp) = true
    ∧ snowball_required_map.all (requiredCopyOk (snowball_address_build mp) mp) = true
    ∧ hasKey (snowball_address_build mp) "IsRestricted" = true
    ∧ dget (snowball_address_build mp) "IsRestricted" = dget mp "restricted"
    ∧ snowball_guarded_map.all (guardedCopyOk (snowball_job_build mp) mp) = true
    ∧ snowball_required_map.all (requiredCopyOk (snowball_job_build mp) mp) = true
    ∧ hasKey (snowball_job_build mp) "IsRestricted" = true
    ∧ dget (snowball_job_build mp) "IsRestricted" = dget mp "restricted"
    ∧ sg_cached_iscsi_map.all (guardedCopyOk (sg_cached_iscsi_volume_build mp) mp) = true
    ∧ rs_remaining_map.all (nonNoneCopyOk (rs_remaining_args mp) mp) = true := by
  refine ⟨?_, ?_, ?_, ?_, ?_, ?_, ?_, ?_, ?_, ?_, ?_, ?_, ?_, ?_, ?_, ?_⟩ <;>
    simp [neptune_guarded_map, neptune_required_map, acm_subject_map,
      acm_revocation_guarded_map, snowball_guarded_map, snowball_required_map,
      sg_cached_iscsi_map, rs_remaining_map, List.all, List.foldl,
      guardedCopyOk, requiredCopyOk, nonNoneCopyOk,
      neptune_build, acm_subject_params, acm_revocation_params,
      snowball_address_build, snowball_job_build, sg_cached_iscsi_volume_build,
      rs_remaining_args, hasKey_ite, hasKey_dset, dget_ite, dget_dset,
      hasKey, dget, val_beq_eq_decide]
